import Mathlib

/-!
Shallow embedding of `src/RadioButtonHelper.js` (CreateJSRadioButtons).

The JavaScript file defines a single constructor function `RadioButtonHelper`
with prototype methods `setEnabled`, `getEnabled`, `getValue`, `setValue`,
`handleEvent`, and an injected reset wrapper `_reset`.  We embed it as:

- `JSVal`: the JavaScript values that can appear as label arguments
  (null, undefined, string, number) — labels may be a string or a frame index.
- `RadioButtonHelper`: the controller's own fields (six resolved labels, the
  `play` flag, and the private booleans `_isPressed`, `_isOver`, `_enabled`,
  `_checked`).
- `TargetState`: observable state and capabilities of the wrapped target
  (whether it has `addEventListener`, `gotoAndStop`, `gotoAndPlay`, a truthy
  `_reset` hook; its cursor, `mouseChildren`, installed hit area, and whether
  the reset wrapper is currently installed, i.e. `__reset` is set).
- `Effect`: a trace of the externally visible calls the controller makes on
  the target (event subscription, cursor writes, seek calls, hit-area setup,
  reset-hook wrapping), so claims about call counts can be stated.

Stateful methods become pure functions returning the updated controller,
the updated target state, and the list of effects performed, in order.
-/

/-- A JavaScript value as used for the label arguments: `null`, `undefined`,
a string, or a number (frame index). -/
inductive JSVal where
  | null
  | undefined
  | str (s : String)
  | num (n : Int)
deriving DecidableEq, Repr

/-- JavaScript loose equality against `null` (`x == null`): true exactly for
`null` and `undefined`; strings (including the empty string) and numbers
(including 0) are not loosely equal to `null`. -/
def jsLooseEqNull (v : JSVal) : Bool :=
  match v with
  | JSVal.null => true
  | JSVal.undefined => true
  | JSVal.str _ => false
  | JSVal.num _ => false

/-- Embeds the constructor's label resolution
`arg == null ? "default" : arg` (lines 96–131 of the source). -/
def resolveLabel (arg : JSVal) (d : String) : JSVal :=
  if jsLooseEqNull arg then JSVal.str d else arg

/-- The controller's fields: the six resolved labels, the `play` flag, and
the private state booleans, mirroring the constructor's assignments. -/
structure RadioButtonHelper where
  outFalseLabel : JSVal
  overFalseLabel : JSVal
  downFalseLabel : JSVal
  outTrueLabel : JSVal
  overTrueLabel : JSVal
  downTrueLabel : JSVal
  play : Bool
  _isPressed : Bool
  _isOver : Bool
  _enabled : Bool
  _checked : Bool
deriving DecidableEq, Repr

/-- The six raw constructor label arguments, in source order. -/
structure LabelArgs where
  outFalse : JSVal
  overFalse : JSVal
  downFalse : JSVal
  outTrue : JSVal
  overTrue : JSVal
  downTrue : JSVal
deriving DecidableEq, Repr

/-- Observable state and capabilities of the target object. Capability flags
model JavaScript truthiness probes (`target.addEventListener`,
`t.gotoAndStop`, `t.gotoAndPlay`, `o._reset`); the mutable part models the
properties the controller writes (`cursor`, `mouseChildren`, `hitArea`,
`__reset`). -/
structure TargetState where
  hasAddEventListener : Bool
  hasGotoAndStop : Bool
  hasGotoAndPlay : Bool
  hasReset : Bool
  cursor : Option String
  mouseChildren : Bool
  hitAreaSet : Bool
  wrappedReset : Bool
deriving DecidableEq, Repr

/-- One externally visible call made by the controller on the target (or on
the hit-area object). `seekStop`/`seekPlay` are the target's
`gotoAndStop`/`gotoAndPlay`; `hitSeekStop` is the hit-area object's own
`gotoAndStop`; `wrapReset`/`unwrapReset` record installing and removing the
reset wrapper. -/
inductive Effect where
  | setMouseChildren (b : Bool)
  | setCursor (c : Option String)
  | addEventListener (ev : String)
  | removeEventListener (ev : String)
  | wrapReset
  | unwrapReset
  | seekStop (label : JSVal)
  | seekPlay (label : JSVal)
  | hitActionsDisabled
  | hitSeekStop
  | setHitArea
deriving DecidableEq, Repr

/-- `true` for the subscribe effects, used to count `addEventListener` calls. -/
def Effect.isAdd (e : Effect) : Bool :=
  match e with
  | Effect.addEventListener _ => true
  | _ => false

/-- `true` for the unsubscribe effects. -/
def Effect.isRemove (e : Effect) : Bool :=
  match e with
  | Effect.removeEventListener _ => true
  | _ => false

/-- `true` for the reset-wrapping effect. -/
def Effect.isWrap (e : Effect) : Bool :=
  match e with
  | Effect.wrapReset => true
  | _ => false

/-- `true` for cursor writes. -/
def Effect.isSetCursor (e : Effect) : Bool :=
  match e with
  | Effect.setCursor _ => true
  | _ => false

/-- `true` for seek calls on the target (`gotoAndStop` or `gotoAndPlay`). -/
def Effect.isSeek (e : Effect) : Bool :=
  match e with
  | Effect.seekStop _ => true
  | Effect.seekPlay _ => true
  | _ => false

/-- The guarded seek call shared by `setValue` and `handleEvent`
(`if (this.play) { t.gotoAndPlay&&t.gotoAndPlay(label); } else
{ t.gotoAndStop&&t.gotoAndStop(label); }`): the call happens only when the
target has the corresponding capability. -/
def gotoCall (play : Bool) (t : TargetState) (label : JSVal) : List Effect :=
  if play then
    if t.hasGotoAndPlay then [Effect.seekPlay label] else []
  else
    if t.hasGotoAndStop then [Effect.seekStop label] else []

/-- Embeds `p.setEnabled` (lines 193–212): a no-op when the value equals the
current `_enabled`; enabling sets the pointer cursor, subscribes the four
events in source order, and wraps `_reset` when the target has one;
disabling clears the cursor, unsubscribes the four events, and restores the
original `_reset` when a wrapper is installed. -/
def setEnabled (h : RadioButtonHelper) (t : TargetState) (value : Bool) :
    RadioButtonHelper × TargetState × List Effect :=
  if value = h._enabled then (h, t, [])
  else if value then
    ({ h with _enabled := true },
     { t with cursor := some "pointer",
              wrappedReset := if t.hasReset then true else t.wrappedReset },
     [Effect.setCursor (some "pointer"),
      Effect.addEventListener "rollover",
      Effect.addEventListener "rollout",
      Effect.addEventListener "mousedown",
      Effect.addEventListener "pressup"] ++
       (if t.hasReset then [Effect.wrapReset] else []))
  else
    ({ h with _enabled := false },
     { t with cursor := none, wrappedReset := false },
     [Effect.setCursor none,
      Effect.removeEventListener "rollover",
      Effect.removeEventListener "rollout",
      Effect.removeEventListener "mousedown",
      Effect.removeEventListener "pressup"] ++
       (if t.wrappedReset then [Effect.unwrapReset] else []))

/-- Embeds `p.getEnabled` (lines 219–221). -/
def getEnabled (h : RadioButtonHelper) : Bool :=
  h._enabled

/-- Embeds `p.getValue` (lines 250–252): returns `_checked`. -/
def getValue (h : RadioButtonHelper) : Bool :=
  h._checked

/-- The state-and-label part of `p.setValue` (lines 259–279): writes
`_checked := val` and picks the label from the new `_checked` with priority
`_isPressed`, then `_isOver`, then idle. -/
def setValueCore (h : RadioButtonHelper) (val : Bool) : RadioButtonHelper × JSVal :=
  let h2 := { h with _checked := val }
  if h2._checked then
    if h2._isPressed then (h2, h2.downTrueLabel)
    else if h2._isOver then (h2, h2.overTrueLabel)
    else (h2, h2.outTrueLabel)
  else
    if h2._isPressed then (h2, h2.downFalseLabel)
    else if h2._isOver then (h2, h2.overFalseLabel)
    else (h2, h2.outFalseLabel)

/-- Embeds `p.setValue` (lines 259–286) in full: the state write, the label
choice, and the guarded seek call on the target. -/
def setValue (h : RadioButtonHelper) (t : TargetState) (val : Bool) :
    RadioButtonHelper × List Effect :=
  let r := setValueCore h val
  (r.1, gotoCall h.play t r.2)

/-- The state-and-label part of `p.handleEvent` (lines 294–326). The event
type is `none` for the constructor's synthetic `handleEvent({})` call (whose
`evt.type` is `undefined`) and `some s` for a string event type; any type
other than the three named ones falls into the rollout/default branch, as in
the source. -/
def handleEventCore (h : RadioButtonHelper) (ty : Option String) :
    RadioButtonHelper × JSVal :=
  if h._checked then
    if ty = some "mousedown" then
      ({ h with _isPressed := true, _checked := false }, h.downFalseLabel)
    else if ty = some "pressup" then
      ({ h with _isPressed := false },
       if h._isOver then h.overTrueLabel else h.outTrueLabel)
    else if ty = some "rollover" then
      ({ h with _isOver := true },
       if h._isPressed then h.downTrueLabel else h.overTrueLabel)
    else
      ({ h with _isOver := false },
       if h._isPressed then h.overTrueLabel else h.outTrueLabel)
  else
    if ty = some "mousedown" then
      ({ h with _isPressed := true, _checked := true }, h.downTrueLabel)
    else if ty = some "pressup" then
      ({ h with _isPressed := false },
       if h._isOver then h.overFalseLabel else h.outFalseLabel)
    else if ty = some "rollover" then
      ({ h with _isOver := true },
       if h._isPressed then h.downFalseLabel else h.overFalseLabel)
    else
      ({ h with _isOver := false },
       if h._isPressed then h.overFalseLabel else h.outFalseLabel)

/-- Embeds `p.handleEvent` (lines 294–332) in full: the branch logic plus the
guarded seek call on the target. -/
def handleEvent (h : RadioButtonHelper) (t : TargetState) (ty : Option String) :
    RadioButtonHelper × List Effect :=
  let r := handleEventCore h ty
  (r.1, gotoCall h.play t r.2)

/-- `true` when the event type falls into the rollout/default branch of
`handleEvent` (anything other than mousedown, pressup, rollover). -/
def isDefaultBranch (ty : Option String) : Bool :=
  (ty ≠ some "mousedown") && (ty ≠ some "pressup") && (ty ≠ some "rollover")

/-- Modelled from the spec: the label that the spec's invariant says is
active for a given (checked, hovered, pressed) state — pressed takes priority
over hovered over idle, each split by checked. Used to compare the code's
label choice against the spec's rule. -/
def specLabel (h : RadioButtonHelper) : JSVal :=
  if h._checked then
    if h._isPressed then h.downTrueLabel
    else if h._isOver then h.overTrueLabel
    else h.outTrueLabel
  else
    if h._isPressed then h.downFalseLabel
    else if h._isOver then h.overFalseLabel
    else h.outFalseLabel

/-- The controller fields as set up by the constructor body before
`this.enabled = true`: the six labels resolved with their defaults
(lines 96–131), `play` as given, and the four private booleans set
to `false` (lines 148–169). -/
def mkLabels (a : LabelArgs) (play : Bool) : RadioButtonHelper :=
  { outFalseLabel := resolveLabel a.outFalse "outFalse"
    overFalseLabel := resolveLabel a.overFalse "overFalse"
    downFalseLabel := resolveLabel a.downFalse "downFalse"
    outTrueLabel := resolveLabel a.outTrue "outTrue"
    overTrueLabel := resolveLabel a.overTrue "overTrue"
    downTrueLabel := resolveLabel a.downTrue "downTrue"
    play := play
    _isPressed := false
    _isOver := false
    _enabled := false
    _checked := false }

/-- Embeds the constructor `RadioButtonHelper(target, ...)` (lines 78–182).
If the target lacks `addEventListener` it returns immediately: no fields are
set and nothing is done to the target. Otherwise it resolves the labels,
sets `target.mouseChildren = false`, enables itself, runs the synthetic
`handleEvent({})`, and installs the optional hit area (freezing it at the
hit label first when one is given). `hitArea` and `hitLabel` model the
truthiness of those two optional arguments. -/
def construct (t : TargetState) (a : LabelArgs) (play : Bool)
    (hitArea : Bool) (hitLabel : Bool) :
    Option RadioButtonHelper × TargetState × List Effect :=
  if t.hasAddEventListener then
    let h0 := mkLabels a play
    let t1 := { t with mouseChildren := false }
    let e1 := [Effect.setMouseChildren false]
    let r2 := setEnabled h0 t1 true
    let r3 := handleEvent r2.1 r2.2.1 none
    let r4 :=
      if hitArea then
        let eh := if hitLabel then [Effect.hitActionsDisabled, Effect.hitSeekStop] else []
        ({ r2.2.1 with hitAreaSet := true }, eh ++ [Effect.setHitArea])
      else (r2.2.1, ([] : List Effect))
    (some r3.1, r4.1, e1 ++ r2.2.2 ++ r3.2 ++ r4.2)
  else
    (none, t, [])

/-- A timeline-playable target's state as seen by the reset wrapper: the
`paused` flag it protects plus the rest of the playhead state that a reset
may change (position abstracted as one number). -/
structure TimelineState where
  paused : Bool
  position : Int
deriving DecidableEq, Repr

/-- Embeds the injected `p._reset` wrapper (lines 339–344): capture `paused`,
call the saved original reset (`this.__reset()`), then restore `paused`.
`orig` is the original reset hook, an arbitrary transformation of the
timeline state. -/
def _reset (orig : TimelineState → TimelineState) (ts : TimelineState) :
    TimelineState :=
  let p := ts.paused
  let ts2 := orig ts
  { ts2 with paused := p }

/-- Default label arguments: all six omitted (`undefined`). -/
def defaultArgs : LabelArgs :=
  { outFalse := JSVal.undefined
    overFalse := JSVal.undefined
    downFalse := JSVal.undefined
    outTrue := JSVal.undefined
    overTrue := JSVal.undefined
    downTrue := JSVal.undefined }

/-- A stub target with full capabilities and clean observable state. -/
def stubTarget : TargetState :=
  { hasAddEventListener := true
    hasGotoAndStop := true
    hasGotoAndPlay := true
    hasReset := true
    cursor := none
    mouseChildren := true
    hitAreaSet := false
    wrappedReset := false }

/-- A target lacking `addEventListener` but otherwise fully capable. -/
def noListenerTarget : TargetState :=
  { stubTarget with hasAddEventListener := false }

/-- A concrete controller state used as a counterexample: checked, hovered,
and pressed all true, with the default labels. -/
def cexHelper : RadioButtonHelper :=
  { mkLabels defaultArgs false with
      _isPressed := true, _isOver := true, _enabled := true, _checked := true }

/-- Branch lemma: `handleEvent` on a mousedown event. -/
theorem handleEventCore_mousedown (h : RadioButtonHelper) :
    handleEventCore h (some "mousedown") =
      if h._checked then
        ({ h with _isPressed := true, _checked := false }, h.downFalseLabel)
      else
        ({ h with _isPressed := true, _checked := true }, h.downTrueLabel) := by
  obtain ⟨oF, vF, dF, oT, vT, dT, pl, ip, io, en, ck⟩ := h
  cases ck <;> rfl

/-- Branch lemma: `handleEvent` on a pressup event. -/
theorem handleEventCore_pressup (h : RadioButtonHelper) :
    handleEventCore h (some "pressup") =
      if h._checked then
        ({ h with _isPressed := false },
         if h._isOver then h.overTrueLabel else h.outTrueLabel)
      else
        ({ h with _isPressed := false },
         if h._isOver then h.overFalseLabel else h.outFalseLabel) := by
  obtain ⟨oF, vF, dF, oT, vT, dT, pl, ip, io, en, ck⟩ := h
  cases ck <;> rfl

/-- Branch lemma: `handleEvent` on a rollover event. -/
theorem handleEventCore_rollover (h : RadioButtonHelper) :
    handleEventCore h (some "rollover") =
      if h._checked then
        ({ h with _isOver := true },
         if h._isPressed then h.downTrueLabel else h.overTrueLabel)
      else
        ({ h with _isOver := true },
         if h._isPressed then h.downFalseLabel else h.overFalseLabel) := by
  obtain ⟨oF, vF, dF, oT, vT, dT, pl, ip, io, en, ck⟩ := h
  cases ck <;> rfl

/-- Branch lemma: `handleEvent` on a rollout or any event type in the
default branch. -/
theorem handleEventCore_default (h : RadioButtonHelper) (ty : Option String)
    (hd : isDefaultBranch ty = true) :
    handleEventCore h ty =
      if h._checked then
        ({ h with _isOver := false },
         if h._isPressed then h.overTrueLabel else h.outTrueLabel)
      else
        ({ h with _isOver := false },
         if h._isPressed then h.overFalseLabel else h.outFalseLabel) := by
  simp only [isDefaultBranch, Bool.and_eq_true, decide_eq_true_eq] at hd
  obtain ⟨⟨h1, h2⟩, h3⟩ := hd
  simp only [handleEventCore, if_neg h1, if_neg h2, if_neg h3]

/-- Claim C1 (counterexample): in the rollout/default branch with
`_isPressed = true` and `_checked = true`, the code emits the over label
("overTrue"), while the claimed pressed-first rule demands the down label
("downTrue") of the resulting state, so the emitted label does not follow
the claimed rule after every operation. -/
theorem C1_counterexample :
    (handleEventCore cexHelper (some "rollout")).2 = JSVal.str "overTrue" ∧
    specLabel (handleEventCore cexHelper (some "rollout")).1 = JSVal.str "downTrue" ∧
    JSVal.str "overTrue" ≠ JSVal.str "downTrue" := by
  refine ⟨rfl, rfl, ?_⟩
  decide

/-- Claim C1 (amended): after `setValue` the emitted label always follows the
pressed > hovered > idle rule on the resulting state; after `handleEvent`
(including the synthetic construction-time call) it follows that rule except
in the rollout/default branch with `_isPressed = true`, where the over label
of the current checked value is emitted instead of the down label. -/
theorem C1_label_rule (h : RadioButtonHelper) (ty : Option String) (v : Bool) :
    (setValueCore h v).2 = specLabel (setValueCore h v).1 ∧
    (handleEventCore h ty).2 =
      (if isDefaultBranch ty && h._isPressed then
        (if h._checked then h.overTrueLabel else h.overFalseLabel)
       else specLabel (handleEventCore h ty).1) := by
  constructor
  · obtain ⟨oF, vF, dF, oT, vT, dT, pl, ip, io, en, ck⟩ := h
    cases v <;> cases ip <;> cases io <;> rfl
  · by_cases h1 : ty = some "mousedown"
    · subst h1
      rw [handleEventCore_mousedown]
      obtain ⟨oF, vF, dF, oT, vT, dT, pl, ip, io, en, ck⟩ := h
      cases ck <;> cases ip <;> rfl
    · by_cases h2 : ty = some "pressup"
      · subst h2
        rw [handleEventCore_pressup]
        obtain ⟨oF, vF, dF, oT, vT, dT, pl, ip, io, en, ck⟩ := h
        cases ck <;> cases io <;> rfl
      · by_cases h3 : ty = some "rollover"
        · subst h3
          rw [handleEventCore_rollover]
          obtain ⟨oF, vF, dF, oT, vT, dT, pl, ip, io, en, ck⟩ := h
          cases ck <;> cases ip <;> rfl
        · have hd : isDefaultBranch ty = true := by
            simp [isDefaultBranch, h1, h2, h3]
          rw [handleEventCore_default h ty hd, hd]
          obtain ⟨oF, vF, dF, oT, vT, dT, pl, ip, io, en, ck⟩ := h
          cases ck <;> cases ip <;> rfl

/-- Claim C2: from any state with `_isPressed = true`, a rollout (or any
event type falling into the default branch) clears `_isOver`, leaves
`_checked` unchanged, and emits the over label of the current checked value
(`overTrueLabel` when checked, `overFalseLabel` when unchecked). -/
theorem C2_rollout_pressed (h : RadioButtonHelper) (ty : Option String)
    (hp : h._isPressed = true) (hd : isDefaultBranch ty = true) :
    (handleEventCore h ty).1._isOver = false ∧
    (handleEventCore h ty).1._checked = h._checked ∧
    (handleEventCore h ty).2 =
      (if h._checked then h.overTrueLabel else h.overFalseLabel) := by
  rw [handleEventCore_default h ty hd]
  obtain ⟨oF, vF, dF, oT, vT, dT, pl, ip, io, en, ck⟩ := h
  subst hp
  cases ck <;> exact ⟨rfl, rfl, rfl⟩

/-- Witness for C2 at a concrete input: the pressed-hovered-checked state
with default labels, receiving a rollout event. -/
theorem C2_witness :
    (handleEventCore cexHelper (some "rollout")).1._isOver = false ∧
    (handleEventCore cexHelper (some "rollout")).1._checked = cexHelper._checked ∧
    (handleEventCore cexHelper (some "rollout")).2 =
      (if cexHelper._checked then cexHelper.overTrueLabel
       else cexHelper.overFalseLabel) :=
  C2_rollout_pressed cexHelper (some "rollout") rfl (by decide)

/-- Claim C3: from any state, mousedown sets `_isPressed`, flips `_checked`,
and emits the down label of the new checked value (`downTrueLabel` when
flipping false to true, `downFalseLabel` when flipping true to false); a
following pressup clears `_isPressed`, keeps the flipped `_checked`, and
emits the over label (if hovered) or out label (if not hovered) of the
flipped checked value. -/
theorem C3_mousedown_then_pressup (h : RadioButtonHelper) :
    (handleEventCore h (some "mousedown")).1._isPressed = true ∧
    (handleEventCore h (some "mousedown")).1._checked = !h._checked ∧
    (handleEventCore h (some "mousedown")).2 =
      (if h._checked then h.downFalseLabel else h.downTrueLabel) ∧
    (handleEventCore (handleEventCore h (some "mousedown")).1 (some "pressup")).1._isPressed
      = false ∧
    (handleEventCore (handleEventCore h (some "mousedown")).1 (some "pressup")).1._checked
      = !h._checked ∧
    (handleEventCore (handleEventCore h (some "mousedown")).1 (some "pressup")).2 =
      (if !h._checked then
        (if h._isOver then h.overTrueLabel else h.outTrueLabel)
       else
        (if h._isOver then h.overFalseLabel else h.outFalseLabel)) := by
  obtain ⟨oF, vF, dF, oT, vT, dT, pl, ip, io, en, ck⟩ := h
  cases ck <;> cases io <;>
    exact ⟨rfl, rfl, rfl, rfl, rfl, rfl⟩

/-- Helper equation: `resolveLabel` substitutes the default exactly when the
argument is `null` or `undefined`. -/
theorem resolveLabel_eq (v : JSVal) (d : String) :
    resolveLabel v d =
      (if v = JSVal.null ∨ v = JSVal.undefined then JSVal.str d else v) := by
  cases v <;> simp [resolveLabel, jsLooseEqNull]

/-- Claim C4: `setValue v` writes `_checked := v`, leaves `_isPressed`,
`_isOver`, and `_enabled` unchanged, computes its single label by the
pressed > hovered > idle rule from the new state, and its only effect is
the guarded seek call with that label — in particular every effect is a
seek, so no subscribe or unsubscribe call happens. -/
theorem C4_setValue (h : RadioButtonHelper) (t : TargetState) (v : Bool) :
    (setValue h t v).1._checked = v ∧
    (setValue h t v).1._isPressed = h._isPressed ∧
    (setValue h t v).1._isOver = h._isOver ∧
    (setValue h t v).1._enabled = h._enabled ∧
    (setValueCore h v).2 = specLabel (setValue h t v).1 ∧
    (setValue h t v).2 = gotoCall h.play t (specLabel (setValue h t v).1) ∧
    (setValue h t v).2.all Effect.isSeek = true := by
  obtain ⟨oF, vF, dF, oT, vT, dT, pl, ip, io, en, ck⟩ := h
  obtain ⟨hA, hGS, hGP, hR, cur, mc, ha, wr⟩ := t
  cases v <;> cases ip <;> cases io <;> cases pl <;> cases hGS <;> cases hGP <;>
    exact ⟨rfl, rfl, rfl, rfl, rfl, rfl, rfl⟩

/-- Claim C5: enabling twice in a row from a disabled state produces exactly
4 subscribe calls in total, at most one reset wrap, and exactly one cursor
write (the second call is a complete no-op); and disabling when already
disabled changes nothing and performs no calls at all. -/
theorem C5_enable_idempotent (h h2 : RadioButtonHelper) (t t2 : TargetState)
    (hE : h._enabled = false) (hE2 : h2._enabled = false) :
    (let r1 := setEnabled h t true
     let r2 := setEnabled r1.1 r1.2.1 true
     (r1.2.2 ++ r2.2.2).countP Effect.isAdd = 4 ∧
     (r1.2.2 ++ r2.2.2).countP Effect.isWrap ≤ 1 ∧
     (r1.2.2 ++ r2.2.2).countP Effect.isSetCursor = 1 ∧
     setEnabled h2 t2 false = (h2, t2, [])) := by
  obtain ⟨oF, vF, dF, oT, vT, dT, pl, ip, io, en, ck⟩ := h
  obtain ⟨oF2, vF2, dF2, oT2, vT2, dT2, pl2, ip2, io2, en2, ck2⟩ := h2
  subst hE
  subst hE2
  obtain ⟨hA, hGS, hGP, hR, cur, mc, ha, wr⟩ := t
  cases hR
  · exact ⟨rfl, Nat.zero_le 1, rfl, rfl⟩
  · exact ⟨rfl, Nat.le_refl 1, rfl, rfl⟩

/-- Witness for C5 at a concrete input: a freshly built controller with
default labels on the stub target. -/
theorem C5_witness :
    (let r1 := setEnabled (mkLabels defaultArgs false) stubTarget true
     let r2 := setEnabled r1.1 r1.2.1 true
     (r1.2.2 ++ r2.2.2).countP Effect.isAdd = 4 ∧
     (r1.2.2 ++ r2.2.2).countP Effect.isWrap ≤ 1 ∧
     (r1.2.2 ++ r2.2.2).countP Effect.isSetCursor = 1 ∧
     setEnabled (mkLabels defaultArgs false) stubTarget false =
       (mkLabels defaultArgs false, stubTarget, [])) :=
  C5_enable_idempotent (mkLabels defaultArgs false) (mkLabels defaultArgs false)
    stubTarget stubTarget rfl rfl

/-- Claim C6: each of the six label fields set by the constructor equals its
fixed default string exactly when the corresponding argument is `null` or
`undefined`; an empty-string or 0 argument is kept as the literal label. -/
theorem C6_label_defaults (a : LabelArgs) :
    ((mkLabels a false).outFalseLabel =
      if a.outFalse = JSVal.null ∨ a.outFalse = JSVal.undefined
      then JSVal.str "outFalse" else a.outFalse) ∧
    ((mkLabels a false).overFalseLabel =
      if a.overFalse = JSVal.null ∨ a.overFalse = JSVal.undefined
      then JSVal.str "overFalse" else a.overFalse) ∧
    ((mkLabels a false).downFalseLabel =
      if a.downFalse = JSVal.null ∨ a.downFalse = JSVal.undefined
      then JSVal.str "downFalse" else a.downFalse) ∧
    ((mkLabels a false).outTrueLabel =
      if a.outTrue = JSVal.null ∨ a.outTrue = JSVal.undefined
      then JSVal.str "outTrue" else a.outTrue) ∧
    ((mkLabels a false).overTrueLabel =
      if a.overTrue = JSVal.null ∨ a.overTrue = JSVal.undefined
      then JSVal.str "overTrue" else a.overTrue) ∧
    ((mkLabels a false).downTrueLabel =
      if a.downTrue = JSVal.null ∨ a.downTrue = JSVal.undefined
      then JSVal.str "downTrue" else a.downTrue) ∧
    (mkLabels { a with overFalse := JSVal.str "" } false).overFalseLabel
      = JSVal.str "" ∧
    (mkLabels { a with downFalse := JSVal.num 0 } false).downFalseLabel
      = JSVal.num 0 := by
  refine ⟨?_, ?_, ?_, ?_, ?_, ?_, rfl, rfl⟩ <;> exact resolveLabel_eq _ _

/-- Claim C7: constructing with all-default labels on a target that has
`addEventListener` and `gotoAndStop` makes exactly one seek call, a
`gotoAndStop` with label "outFalse" (from the synthetic no-event call on the
initial all-false state), whatever the hit-area arguments are. -/
theorem C7_construct_initial_label (t : TargetState)
    (hA : t.hasAddEventListener = true) (hGS : t.hasGotoAndStop = true)
    (hitArea hitLabel : Bool) :
    (construct t defaultArgs false hitArea hitLabel).2.2.filter Effect.isSeek =
      [Effect.seekStop (JSVal.str "outFalse")] := by
  obtain ⟨hA0, hGS0, hGP, hR, cur, mc, ha, wr⟩ := t
  subst hA
  subst hGS
  cases hR <;> cases hitArea <;> cases hitLabel <;> rfl

/-- Witness for C7 at a concrete input: the stub target, no hit area. -/
theorem C7_witness :
    (construct stubTarget defaultArgs false false false).2.2.filter Effect.isSeek =
      [Effect.seekStop (JSVal.str "outFalse")] :=
  C7_construct_initial_label stubTarget rfl rfl false false

/-- Claim C8: constructing on a target without `addEventListener` yields no
controller state and performs no effect at all — no subscription, no cursor
write, no mouseChildren write, no hit-area install, no seek — and leaves the
target untouched. -/
theorem C8_inert_without_listener (t : TargetState) (a : LabelArgs)
    (play hitArea hitLabel : Bool) (hA : t.hasAddEventListener = false) :
    construct t a play hitArea hitLabel = (none, t, []) := by
  obtain ⟨hA0, hGS0, hGP, hR, cur, mc, ha, wr⟩ := t
  subst hA
  rfl

/-- Witness for C8 at a concrete input: the stub target with
`addEventListener` removed. -/
theorem C8_witness :
    construct noListenerTarget defaultArgs false false false =
      (none, noListenerTarget, []) :=
  C8_inert_without_listener noListenerTarget defaultArgs false false false rfl

/-- Claim C9: the injected reset wrapper calls the original reset hook and
leaves `paused` equal to its value captured before the call, for every
original hook and every timeline state. -/
theorem C9_reset_preserves_paused (orig : TimelineState → TimelineState)
    (ts : TimelineState) :
    (_reset orig ts).paused = ts.paused ∧
    _reset orig ts = { orig ts with paused := ts.paused } :=
  ⟨rfl, rfl⟩

/-- Claim C10: for every boolean `v` and every controller and target state,
`setValue v` followed by `getValue` returns exactly `v`. -/
theorem C10_setValue_then_getValue (h : RadioButtonHelper) (t : TargetState)
    (v : Bool) :
    getValue (setValue h t v).1 = v := by
  obtain ⟨oF, vF, dF, oT, vT, dT, pl, ip, io, en, ck⟩ := h
  cases v <;> cases ip <;> cases io <;> rfl
